import Mathlib

/-!
Verification model of `objexplore`'s `CachedObject` (the spec's `InspectionNode`).

The repository holds two near-identical variants of the class:
`src/objexplore/cached_object.py` (fields `obj`, `dotpath`, guarded selected-attribute
queries, no cursor-movement methods) and `src/objex/cached_object.py`
(fields `obj`, `name`, `parent_name`, unguarded selected-attribute queries, and the
`move_down` / `move_up` / `move_top` / `move_bottom` methods).  The attribute
enumeration, partition and caching logic is character-for-character the same in both,
so it is modelled once; the points where the variants differ (the selected-attribute
queries) are modelled twice, under the namespaces `Objex` and `ObjExplore`.

Python specifics kept by the model:
* list indices are `Int` (so `len([]) - 1 = -1`, as in `move_bottom` on an empty list);
* `lst[i]` supports negative indices down to `-len` and raises `IndexError` otherwise
  (`pyGet` returns `none` for the raising case);
* `dict[k]` raises `KeyError` when `k` is absent (`Option`-valued lookup);
* a raising `getattr` is modelled by `Runtime.getattr` returning `none`; a function
  that lets such an exception escape returns an `ok : Bool` flag that is `false`
  when the exception propagates, alongside the fields as already mutated;
* Python's `sorted` (ascending, stable) is modelled by `List.insertionSort (· ≤ ·)`:
  `≤` on names is antisymmetric, so every sort that is sorted and a permutation
  produces this same list;
* `list.remove(x)` preceded by an `if x in lst` guard is exactly `List.erase`.
-/

namespace ObjexploreModel

/-- The two attribute categories, module-level constants `PUBLIC` / `PRIVATE`. -/
inductive AttrCat where
  | PUBLIC
  | PRIVATE
deriving DecidableEq, Repr

/-- Python exceptions distinguished by the model. -/
inductive PyError where
  | IndexError
  | KeyError
deriving DecidableEq, Repr

/-- The host runtime's reflection facility: `dir(obj)` and `getattr(obj, name)`.
`getattr` returns `none` when the attribute fetch raises. -/
structure Runtime (V : Type) where
  dir : V → List String
  getattr : V → String → Option V

/-- Python `lst[i]` for `i : Int`: non-negative indices, negative indices from the
end, `none` (`IndexError`) out of range. -/
def pyGet (l : List α) (i : Int) : Option α :=
  if 0 ≤ i then l.get? i.toNat
  else if 0 ≤ i + l.length then l.get? (i + l.length).toNat
  else none

/-- Python `attr.startswith('_')`: the first character is an underscore
(`false` on the empty string). -/
def startswithUnderscore (a : String) : Bool :=
  match a.data with
  | [] => false
  | c :: _ => c = '_'

/-- The string order used by Python's `sorted`: lexicographic by character.
Stated on `String.data` (the character list); `strLe_iff` below shows it is
exactly `≤` on `String`. -/
def strLe (a b : String) : Prop :=
  a.data ≤ b.data

instance : DecidableRel strLe := fun a b => by
  unfold strLe
  infer_instance

/-- The scalar fields of `CachedObject` set by `__init__` (everything except the
`cached_attributes` dict, which is split off so the node type can nest). -/
structure NodeCore (V : Type) where
  obj : V
  dotpath : String
  attribute_type : AttrCat
  public_attribute_index : Int
  private_attribute_index : Int
  public_attribute_window : Int
  private_attribute_window : Int
  plain_attrs : List String
  plain_public_attributes : List String
  plain_private_attributes : List String
deriving DecidableEq

/-- A `CachedObject` node: its scalar fields plus the `cached_attributes` dict,
modelled as an insertion-ordered association list (Python dicts preserve
insertion order and have unique keys). -/
inductive CachedObject (V : Type) : Type where
  | node (core : NodeCore V) (cached_attributes : List (String × CachedObject V)) :
      CachedObject V

def CachedObject.core : CachedObject V → NodeCore V
  | .node c _ => c

def CachedObject.cached_attributes : CachedObject V → List (String × CachedObject V)
  | .node _ m => m

/-- `CachedObject.__init__` (identical in both variants up to naming): enumerate
`dir(obj)`, drop `__weakref__`, partition by leading underscore, sort each part,
start with category PUBLIC, both cursors and windows 0. -/
def NodeCore.init (R : Runtime V) (obj : V) (dotpath : String) : NodeCore V :=
  let plain_attrs := (R.dir obj).erase "__weakref__"
  { obj := obj
    dotpath := dotpath
    attribute_type := .PUBLIC
    public_attribute_index := 0
    private_attribute_index := 0
    public_attribute_window := 0
    private_attribute_window := 0
    plain_attrs := plain_attrs
    plain_public_attributes :=
      (plain_attrs.filter (fun a => !(startswithUnderscore a))).insertionSort strLe
    plain_private_attributes :=
      (plain_attrs.filter (fun a => startswithUnderscore a)).insertionSort strLe }

/-- A freshly constructed node: scalar fields from `__init__`, empty children dict. -/
def CachedObject.init (R : Runtime V) (obj : V) (dotpath : String) : CachedObject V :=
  .node (NodeCore.init R obj dotpath) []

/-- Python dict assignment `d[k] = v`: replace in place if the key is present,
otherwise append (insertion order preserved). -/
def dictInsert (m : List (String × A)) (k : String) (v : A) : List (String × A) :=
  if (m.lookup k).isSome then m.map (fun p => if p.1 = k then (k, v) else p)
  else m ++ [(k, v)]

/-- The loop body of `cache_attributes`:
`for attr in self.plain_attrs: self.cached_attributes[attr] = CachedObject(getattr(self.obj, attr), dotpath=f'{self.dotpath}.{attr}')`.
Returns the dict as mutated so far and `true`, or — when a `getattr` raises —
the dict holding the insertions made before the raising iteration and `false`
(the exception escapes the loop, leaving those insertions in place). -/
def cacheLoop (R : Runtime V) (obj : V) (dotpath : String)
    (m : List (String × CachedObject V)) :
    List String → List (String × CachedObject V) × Bool
  | [] => (m, true)
  | attr :: rest =>
    match R.getattr obj attr with
    | none => (m, false)
    | some v =>
      cacheLoop R obj dotpath
        (dictInsert m attr (CachedObject.init R v (dotpath ++ "." ++ attr))) rest

/-- `CachedObject.cache_attributes`: `if not self.cached_attributes:` (an empty dict
is falsy) run the caching loop over `plain_attrs`; otherwise do nothing.
The `Bool` is `true` on normal return, `false` when a `getattr` exception escapes. -/
def CachedObject.cache_attributes (R : Runtime V) :
    CachedObject V → CachedObject V × Bool
  | .node core m =>
    if m.isEmpty then
      let r := cacheLoop R core.obj core.dotpath [] core.plain_attrs
      (.node core r.1, r.2)
    else (.node core m, true)

/-- `CachedObject.__getitem__`: `self.cached_attributes[key]`; `none` models the
`KeyError` raised when the key is absent. -/
def CachedObject.getitem (c : CachedObject V) (key : String) :
    Option (CachedObject V) :=
  c.cached_attributes.lookup key

/-- The drill-down step the explorer performs for a member name: populate the
children dict with `cache_attributes`, then look the name up with `__getitem__`
(this composition is the spec's `expand(name)`).  Returns the node as mutated
and the child (`none` when the fetch raised or the name is not cached). -/
def CachedObject.expand (R : Runtime V) (c : CachedObject V) (name : String) :
    CachedObject V × Option (CachedObject V) :=
  let r := c.cache_attributes R
  (r.1, if r.2 then r.1.getitem name else none)

/-- `CachedObject.move_down` (objex variant, lines 137–149): advance the active
category's cursor when strictly below the last index, then advance the window
when the new cursor exceeds `window + panel_height`. -/
def NodeCore.move_down (s : NodeCore V) (panel_height : Int) : NodeCore V :=
  match s.attribute_type with
  | .PUBLIC =>
    if s.public_attribute_index < (s.plain_public_attributes.length : Int) - 1 then
      let i := s.public_attribute_index + 1
      { s with
        public_attribute_index := i
        public_attribute_window :=
          if i > s.public_attribute_window + panel_height then
            s.public_attribute_window + 1
          else s.public_attribute_window }
    else s
  | .PRIVATE =>
    if s.private_attribute_index < (s.plain_private_attributes.length : Int) - 1 then
      let i := s.private_attribute_index + 1
      { s with
        private_attribute_index := i
        private_attribute_window :=
          if i > s.private_attribute_window + panel_height then
            s.private_attribute_window + 1
          else s.private_attribute_window }
    else s

/-- `CachedObject.move_up` (objex variant, lines 151–162): retreat the active
category's cursor when above 0, then retreat the window when the new cursor is
below it.  (Takes no height argument, as in the source.) -/
def NodeCore.move_up (s : NodeCore V) : NodeCore V :=
  match s.attribute_type with
  | .PUBLIC =>
    if s.public_attribute_index > 0 then
      let i := s.public_attribute_index - 1
      { s with
        public_attribute_index := i
        public_attribute_window :=
          if i < s.public_attribute_window then s.public_attribute_window - 1
          else s.public_attribute_window }
    else s
  | .PRIVATE =>
    if s.private_attribute_index > 0 then
      let i := s.private_attribute_index - 1
      { s with
        private_attribute_index := i
        private_attribute_window :=
          if i < s.private_attribute_window then s.private_attribute_window - 1
          else s.private_attribute_window }
    else s

/-- `CachedObject.move_top` (objex variant, lines 164–171): reset the active
category's cursor and window to 0, unconditionally. -/
def NodeCore.move_top (s : NodeCore V) : NodeCore V :=
  match s.attribute_type with
  | .PUBLIC =>
    { s with public_attribute_index := 0, public_attribute_window := 0 }
  | .PRIVATE =>
    { s with private_attribute_index := 0, private_attribute_window := 0 }

/-- `CachedObject.move_bottom` (objex variant, lines 173–180): set the active
category's cursor to `len(list) - 1` (which is `-1` on an empty list) and the
window to `max(0, cursor - panel_height)`. -/
def NodeCore.move_bottom (s : NodeCore V) (panel_height : Int) : NodeCore V :=
  match s.attribute_type with
  | .PUBLIC =>
    let i := (s.plain_public_attributes.length : Int) - 1
    { s with
      public_attribute_index := i
      public_attribute_window := max 0 (i - panel_height) }
  | .PRIVATE =>
    let i := (s.plain_private_attributes.length : Int) - 1
    { s with
      private_attribute_index := i
      private_attribute_window := max 0 (i - panel_height) }

/-- The spec's `L`: the member-name list of the currently active category. -/
def NodeCore.activeList (s : NodeCore V) : List String :=
  match s.attribute_type with
  | .PUBLIC => s.plain_public_attributes
  | .PRIVATE => s.plain_private_attributes

/-- The spec's `i`: the cursor of the currently active category. -/
def NodeCore.activeIndex (s : NodeCore V) : Int :=
  match s.attribute_type with
  | .PUBLIC => s.public_attribute_index
  | .PRIVATE => s.private_attribute_index

/-- The spec's `o`: the scroll offset of the currently active category. -/
def NodeCore.activeWindow (s : NodeCore V) : Int :=
  match s.attribute_type with
  | .PUBLIC => s.public_attribute_window
  | .PRIVATE => s.private_attribute_window

end ObjexploreModel

namespace ObjexploreModel.Objex

open ObjexploreModel

/-- objex `selected_public_attribute` (lines 84–86): unguarded
`self.plain_public_attributes[self.public_attribute_index]`; `none` models the
`IndexError` raised when the index is out of range (as on an empty list). -/
def selected_public_attribute (s : NodeCore V) : Option String :=
  pyGet s.plain_public_attributes s.public_attribute_index

/-- objex `selected_private_attribute` (lines 88–90), unguarded likewise. -/
def selected_private_attribute (s : NodeCore V) : Option String :=
  pyGet s.plain_private_attributes s.private_attribute_index

/-- objex `selected_cached_attribute` (lines 92–98): index the children dict with
the selected name of the active category; an `IndexError` from the selection or
a `KeyError` from the dict propagates. -/
def selected_cached_attribute (c : CachedObject V) :
    Except PyError (CachedObject V) :=
  match c.core.attribute_type with
  | .PUBLIC =>
    match selected_public_attribute c.core with
    | none => .error .IndexError
    | some name =>
      match c.getitem name with
      | none => .error .KeyError
      | some child => .ok child
  | .PRIVATE =>
    match selected_private_attribute c.core with
    | none => .error .IndexError
    | some name =>
      match c.getitem name with
      | none => .error .KeyError
      | some child => .ok child

end ObjexploreModel.Objex

namespace ObjexploreModel.ObjExplore

open ObjexploreModel

/-- objexplore `selected_public_attribute` (lines 114–118): return
`plain_public_attributes[public_attribute_index]` when the list is non-empty
(`.error` models the `IndexError` the indexing raises when the cursor is out of
range), else Python `None` (`.ok none`). -/
def selected_public_attribute (s : NodeCore V) : Except PyError (Option String) :=
  if s.plain_public_attributes.isEmpty then .ok none
  else
    match pyGet s.plain_public_attributes s.public_attribute_index with
    | none => .error .IndexError
    | some a => .ok (some a)

/-- objexplore `selected_private_attribute` (lines 120–124), likewise. -/
def selected_private_attribute (s : NodeCore V) : Except PyError (Option String) :=
  if s.plain_private_attributes.isEmpty then .ok none
  else
    match pyGet s.plain_private_attributes s.private_attribute_index with
    | none => .error .IndexError
    | some a => .ok (some a)

/-- objexplore `selected_cached_attribute` (lines 126–132):
`if self.attribute_type == PUBLIC and self.selected_public_attribute: return self[...]`
and the symmetric `elif` for PRIVATE; falls through to Python `None` (`.ok none`)
when the guard fails — note the guard tests the *truthiness* of the selected name,
so the empty string also falls through. -/
def selected_cached_attribute (c : CachedObject V) :
    Except PyError (Option (CachedObject V)) :=
  match c.core.attribute_type with
  | .PUBLIC =>
    match selected_public_attribute c.core with
    | .error e => .error e
    | .ok none => .ok none
    | .ok (some name) =>
      if name = "" then .ok none
      else
        match c.getitem name with
        | none => .error .KeyError
        | some child => .ok (some child)
  | .PRIVATE =>
    match selected_private_attribute c.core with
    | .error e => .error e
    | .ok none => .ok none
    | .ok (some name) =>
      if name = "" then .ok none
      else
        match c.getitem name with
        | none => .error .KeyError
        | some child => .ok (some child)

end ObjexploreModel.ObjExplore

namespace ObjexploreModel

/-- Concrete runtime used in witnesses: object `0` has attributes `a`, `b`. -/
def demoGetattr : Nat → String → Option Nat
  | 0, "a" => some 1
  | 0, "b" => some 2
  | _, _ => none

def demoRT : Runtime Nat :=
  ⟨fun v => if v = 0 then ["a", "b"] else [], demoGetattr⟩

/-- A concrete navigation state browsing the PUBLIC list, for witnesses and
counterexamples: the given public names, cursor `i`, window `o`. -/
def pubState (pub : List String) (i o : Int) : NodeCore Nat :=
  { obj := 0
    dotpath := "root"
    attribute_type := .PUBLIC
    public_attribute_index := i
    private_attribute_index := 0
    public_attribute_window := o
    private_attribute_window := 0
    plain_attrs := pub
    plain_public_attributes := pub
    plain_private_attributes := [] }

/-- Write the active category's `(cursor, scrollOffset)` pair (used to state what
`move_top` / `move_bottom` do to the active category). -/
def NodeCore.withActive (s : NodeCore V) (i o : Int) : NodeCore V :=
  match s.attribute_type with
  | .PUBLIC => { s with public_attribute_index := i, public_attribute_window := o }
  | .PRIVATE => { s with private_attribute_index := i, private_attribute_window := o }

/-- C7: `moveDown` increments the cursor exactly when it is strictly below
`len(list) - 1`, and advances the scroll offset by one exactly when, after the
increment, `cursor > scrollOffset + windowHeight`; and on public members
`["a", "b", "c"]` with `windowHeight = 1`, two `moveDown` calls from
`(cursor, offset) = (0, 0)` end in `(2, 1)`. -/
theorem C7_move_down_characterization :
    (∀ (V : Type) (s : NodeCore V) (h : Int),
      (s.move_down h).activeIndex =
        (if s.activeIndex < (s.activeList.length : Int) - 1 then s.activeIndex + 1
         else s.activeIndex) ∧
      (s.move_down h).activeWindow =
        (if s.activeIndex < (s.activeList.length : Int) - 1 ∧
            s.activeIndex + 1 > s.activeWindow + h then s.activeWindow + 1
         else s.activeWindow)) ∧
    (((pubState ["a", "b", "c"] 0 0).move_down 1).move_down 1 =
      pubState ["a", "b", "c"] 2 1) := by
  constructor
  · intro V s h
    obtain ⟨obj, dp, t, pi, qi, pw, qw, pa, pub, priv⟩ := s
    cases t <;>
      simp only [NodeCore.move_down, NodeCore.activeIndex, NodeCore.activeWindow,
        NodeCore.activeList] <;>
      split_ifs <;> simp_all
  · decide

/-- C3 fails as stated: the state with public list `["a", "b", "c", "d"]`,
`cursor = 2` (a non-boundary position, and `0 ≤ offset ≤ cursor ≤ len - 1`
holds), `offset = 0` and `windowHeight = 1` is changed by `moveDown`-then-
`moveUp` to `(cursor, offset) = (2, 1)`: the down-move scrolls the window,
the up-move does not scroll it back. -/
theorem C3_counterexample :
    0 < (pubState ["a", "b", "c", "d"] 2 0).activeIndex ∧
    (pubState ["a", "b", "c", "d"] 2 0).activeIndex <
      ((pubState ["a", "b", "c", "d"] 2 0).activeList.length : Int) - 1 ∧
    ((pubState ["a", "b", "c", "d"] 2 0).move_down 1).move_up =
      pubState ["a", "b", "c", "d"] 2 1 ∧
    pubState ["a", "b", "c", "d"] 2 1 ≠ pubState ["a", "b", "c", "d"] 2 0 := by
  decide

/-- C3 amended: `moveDown` then `moveUp` from a non-boundary cursor position
restores the whole state exactly, provided the scroll offset is at most the
cursor and the cursor is strictly inside the visible window
(`cursor < offset + windowHeight`) or at its top (`cursor = offset`). -/
theorem C3_move_down_up_roundtrip (V : Type) (s : NodeCore V) (h : Int)
    (hpos : 0 < s.activeIndex)
    (hlast : s.activeIndex < (s.activeList.length : Int) - 1)
    (hwin : s.activeWindow ≤ s.activeIndex)
    (hvis : s.activeIndex < s.activeWindow + h ∨ s.activeIndex = s.activeWindow) :
    (s.move_down h).move_up = s := by
  obtain ⟨obj, dp, t, pi, qi, pw, qw, pa, pub, priv⟩ := s
  cases t <;>
    simp only [NodeCore.move_down, NodeCore.move_up, NodeCore.activeIndex,
      NodeCore.activeWindow, NodeCore.activeList] at * <;>
    split_ifs <;> simp_all <;> omega

/-- Witness for C3 amended at a concrete state: public list `["a", "b", "c"]`,
cursor 1, offset 0, window height 5. -/
theorem C3_move_down_up_roundtrip_witness :
    ((pubState ["a", "b", "c"] 1 0).move_down 5).move_up =
      pubState ["a", "b", "c"] 1 0 :=
  C3_move_down_up_roundtrip Nat (pubState ["a", "b", "c"] 1 0) 5
    (by decide) (by decide) (by decide) (Or.inl (by decide))

/-- C4 fails as stated: on an empty active list, `move_bottom` is not a no-op —
from the freshly constructed state `(cursor, offset) = (0, 0)` it sets the
cursor to `len([]) - 1 = -1`. -/
theorem C4_counterexample :
    (pubState [] 0 0).activeList = [] ∧
    (pubState [] 0 0).move_bottom 5 = pubState [] (-1) 0 ∧
    pubState [] (-1) 0 ≠ pubState [] 0 0 := by
  decide

/-- C4 amended: on an empty active list (where the reachable cursor values are
`0`, from construction, and `-1`, left by `move_bottom`), `moveDown` and
`moveUp` are no-ops, `moveTop` sets the active pair to `(0, 0)`, and
`moveBottom` sets it to `(-1, max 0 (-1 - windowHeight))` — so the last two are
not no-ops in general. -/
theorem C4_empty_list_moves (V : Type) (s : NodeCore V) (h : Int)
    (hempty : s.activeList = [])
    (hcur : s.activeIndex = 0 ∨ s.activeIndex = -1) :
    s.move_down h = s ∧
    s.move_up = s ∧
    s.move_top = s.withActive 0 0 ∧
    s.move_bottom h = s.withActive (-1) (max 0 (-1 - h)) := by
  obtain ⟨obj, dp, t, pi, qi, pw, qw, pa, pub, priv⟩ := s
  cases t <;>
    simp only [NodeCore.move_down, NodeCore.move_up, NodeCore.move_top,
      NodeCore.move_bottom, NodeCore.withActive, NodeCore.activeIndex,
      NodeCore.activeList] at * <;>
    split_ifs <;> simp_all <;> omega

/-- Witness for C4 amended at the freshly constructed empty-list state. -/
theorem C4_empty_list_moves_witness :
    (pubState [] 0 0).move_down 3 = pubState [] 0 0 ∧
    (pubState [] 0 0).move_up = pubState [] 0 0 ∧
    (pubState [] 0 0).move_top = (pubState [] 0 0).withActive 0 0 ∧
    (pubState [] 0 0).move_bottom 3 =
      (pubState [] 0 0).withActive (-1) (max 0 (-1 - 3)) :=
  C4_empty_list_moves Nat (pubState [] 0 0) 3 (by decide) (Or.inl (by decide))

/-- The spec's cursor/window invariant, per category:
`0 ≤ scrollOffset[c] ≤ cursor[c] ≤ len(list[c]) - 1` whenever `list[c]` is
non-empty. -/
def NodeCore.Invariant (s : NodeCore V) : Prop :=
  (s.plain_public_attributes ≠ [] →
    0 ≤ s.public_attribute_window ∧
    s.public_attribute_window ≤ s.public_attribute_index ∧
    s.public_attribute_index ≤ (s.plain_public_attributes.length : Int) - 1) ∧
  (s.plain_private_attributes ≠ [] →
    0 ≤ s.private_attribute_window ∧
    s.private_attribute_window ≤ s.private_attribute_index ∧
    s.private_attribute_index ≤ (s.plain_private_attributes.length : Int) - 1)

instance (s : NodeCore V) : Decidable s.Invariant := by
  unfold NodeCore.Invariant
  infer_instance

/-- C6: the invariant `0 ≤ offset[c] ≤ cursor[c] ≤ len(list[c]) - 1` (for each
non-empty category `c`) holds after construction and is preserved by each of the
four movement operations, for any non-negative `windowHeight`, from any state
satisfying it. -/
theorem C6_cursor_window_invariant :
    (∀ (V : Type) (R : Runtime V) (obj : V) (p : String),
      (NodeCore.init R obj p).Invariant) ∧
    (∀ (V : Type) (s : NodeCore V) (h : Int), 0 ≤ h → s.Invariant →
      (s.move_down h).Invariant ∧ s.move_up.Invariant ∧
      s.move_top.Invariant ∧ (s.move_bottom h).Invariant) := by
  constructor
  · intro V R obj p
    constructor <;> intro hne <;>
      simp only [NodeCore.init] <;>
      refine ⟨le_refl 0, le_refl 0, ?_⟩ <;>
      · have := List.length_pos.mpr hne
        simp only [NodeCore.init] at this ⊢
        omega
  · intro V s h hh hs
    obtain ⟨obj, dp, t, pi, qi, pw, qw, pa, pub, priv⟩ := s
    obtain ⟨h1, h2⟩ := hs
    refine ⟨⟨?_, ?_⟩, ⟨?_, ?_⟩, ⟨?_, ?_⟩, ⟨?_, ?_⟩⟩ <;>
      intro hne <;>
      cases t <;>
      simp only [NodeCore.move_down, NodeCore.move_up, NodeCore.move_top,
        NodeCore.move_bottom] at * <;>
      (try split_ifs at *) <;>
      simp_all <;>
      (try have := List.length_pos.mpr hne) <;>
      omega

/-- Witness for C6 at a concrete state and height. -/
theorem C6_cursor_window_invariant_witness :
    ((pubState ["a", "b", "c"] 1 1).move_down 0).Invariant :=
  (C6_cursor_window_invariant.2 Nat (pubState ["a", "b", "c"] 1 1) 0
    (by decide) (by decide)).1

lemma strLe_iff (a b : String) : strLe a b ↔ a ≤ b :=
  ⟨fun h => String.le_iff_toList_le.mpr h, fun h => String.le_iff_toList_le.mp h⟩

instance : IsTotal String strLe :=
  ⟨fun a b => le_total a.data b.data⟩

instance : IsTrans String strLe :=
  ⟨fun _ _ _ h1 h2 => le_trans h1 h2⟩

/-- C5: for every wrapped object, the public and private name lists together are
exactly the enumerated member names minus `__weakref__`, they are disjoint
(partitioned by the leading underscore), and each is sorted ascending.
The hypothesis that `dir` lists no name twice reflects the host runtime's
contract (Python's `dir` returns a deduplicated sorted list). -/
theorem C5_partition_sorted (V : Type) (R : Runtime V) (v : V) (p : String)
    (hnd : (R.dir v).Nodup) :
    (∀ a, (a ∈ (NodeCore.init R v p).plain_public_attributes ∨
           a ∈ (NodeCore.init R v p).plain_private_attributes) ↔
          (a ∈ R.dir v ∧ a ≠ "__weakref__")) ∧
    (∀ a, a ∈ (NodeCore.init R v p).plain_public_attributes →
          a ∉ (NodeCore.init R v p).plain_private_attributes) ∧
    (NodeCore.init R v p).plain_public_attributes.Sorted (· ≤ ·) ∧
    (NodeCore.init R v p).plain_private_attributes.Sorted (· ≤ ·) := by
  refine ⟨?_, ?_, ?_, ?_⟩
  · intro a
    simp only [NodeCore.init, List.mem_insertionSort, List.mem_filter,
      hnd.mem_erase_iff, Bool.not_eq_eq_eq_not, Bool.not_true]
    constructor
    · rintro (⟨⟨hne, hm⟩, _⟩ | ⟨⟨hne, hm⟩, _⟩) <;> exact ⟨hm, hne⟩
    · rintro ⟨hm, hne⟩
      cases hu : startswithUnderscore a
      · exact Or.inl ⟨⟨hne, hm⟩, rfl⟩
      · exact Or.inr ⟨⟨hne, hm⟩, rfl⟩
  · intro a hpub hpriv
    simp only [NodeCore.init, List.mem_insertionSort, List.mem_filter,
      Bool.not_eq_eq_eq_not, Bool.not_true] at hpub hpriv
    rw [hpub.2] at hpriv
    exact Bool.false_ne_true hpriv.2
  · exact (List.sorted_insertionSort strLe _).imp fun h => (strLe_iff _ _).mp h
  · exact (List.sorted_insertionSort strLe _).imp fun h => (strLe_iff _ _).mp h

/-- Witness for C5: the partition equation instantiated at the demo runtime and
the name `a`. -/
theorem C5_partition_sorted_witness :
    ("a" ∈ (NodeCore.init demoRT 0 "x").plain_public_attributes ∨
     "a" ∈ (NodeCore.init demoRT 0 "x").plain_private_attributes) ↔
    ("a" ∈ demoRT.dir 0 ∧ "a" ≠ "__weakref__") :=
  (C5_partition_sorted Nat demoRT 0 "x" (by decide)).1 "a"

lemma lookup_cons_self {A : Type} {l : List (String × A)} {k : String} {v : A} :
    (((k, v) :: l).lookup k) = some v := by
  rw [List.lookup_cons, beq_self_eq_true]

lemma lookup_cons_ne {A : Type} {l : List (String × A)} {k a : String} {v : A}
    (h : k ≠ a) : (((a, v) :: l).lookup k) = l.lookup k := by
  rw [List.lookup_cons, beq_eq_false_iff_ne.mpr h]

lemma lookup_append_of_none {A : Type} {l₁ l₂ : List (String × A)} {k : String}
    (h : l₁.lookup k = none) : (l₁ ++ l₂).lookup k = l₂.lookup k := by
  induction l₁ with
  | nil => simp
  | cons p l ih =>
    obtain ⟨a, v⟩ := p
    by_cases hk : k = a
    · subst hk
      rw [lookup_cons_self] at h
      cases h
    · rw [lookup_cons_ne hk] at h
      rw [List.cons_append, lookup_cons_ne hk]
      exact ih h

lemma lookup_map_pair_of_mem {A : Type} {attrs : List String} {f : String → A}
    {n : String} (hn : n ∈ attrs) :
    ((attrs.map fun a => (a, f a)).lookup n) = some (f n) := by
  induction attrs with
  | nil => cases hn
  | cons a rest ih =>
    rw [List.map_cons]
    by_cases hk : n = a
    · subst hk
      exact lookup_cons_self
    · rw [lookup_cons_ne hk]
      exact ih ((List.mem_cons.mp hn).resolve_left hk)

lemma lookup_map_pair_of_not_mem {A : Type} {attrs : List String} {f : String → A}
    {n : String} (hn : n ∉ attrs) :
    ((attrs.map fun a => (a, f a)).lookup n) = none := by
  induction attrs with
  | nil => rfl
  | cons a rest ih =>
    rw [List.map_cons,
      lookup_cons_ne fun h : n = a => hn (h ▸ List.mem_cons_self a rest)]
    exact ih fun h => hn (List.mem_cons_of_mem a h)

lemma map_fst_map_pair {A : Type} (attrs : List String) (f : String → A) :
    ((attrs.map fun a => (a, f a)).map Prod.fst) = attrs := by
  induction attrs with
  | nil => rfl
  | cons a rest ih => simp [ih]

lemma cacheLoop_cons_some {V : Type} {R : Runtime V} {obj v : V} {p attr : String}
    {rest : List String} {m : List (String × CachedObject V)}
    (h : R.getattr obj attr = some v) :
    cacheLoop R obj p m (attr :: rest) =
      cacheLoop R obj p
        (dictInsert m attr (CachedObject.init R v (p ++ "." ++ attr))) rest := by
  rw [cacheLoop, h]

lemma cacheLoop_cons_none {V : Type} {R : Runtime V} {obj : V} {p attr : String}
    {rest : List String} {m : List (String × CachedObject V)}
    (h : R.getattr obj attr = none) :
    cacheLoop R obj p m (attr :: rest) = (m, false) := by
  rw [cacheLoop, h]

lemma dictInsert_of_none {V : Type} {m : List (String × CachedObject V)}
    {k : String} {v : CachedObject V} (h : m.lookup k = none) :
    dictInsert m k v = m ++ [(k, v)] := by
  simp [dictInsert, h]

/-- `cacheLoop` when every fetch on the remaining names succeeds: it appends one
freshly constructed child per name, in order, and returns normally. -/
lemma cacheLoop_success {V : Type} (R : Runtime V) (obj : V) (p : String)
    (g : String → V) :
    ∀ (attrs : List String) (m : List (String × CachedObject V)),
      attrs.Nodup → (∀ a ∈ attrs, m.lookup a = none) →
      (∀ a ∈ attrs, R.getattr obj a = some (g a)) →
      cacheLoop R obj p m attrs =
        (m ++ attrs.map fun a => (a, CachedObject.init R (g a) (p ++ "." ++ a)),
         true)
  | [], m, _, _, _ => by simp [cacheLoop]
  | attr :: rest, m, hnd, hfresh, hg => by
    rw [cacheLoop_cons_some (hg attr (List.mem_cons_self attr rest)),
      dictInsert_of_none (hfresh attr (List.mem_cons_self attr rest)),
      cacheLoop_success R obj p g rest _ hnd.of_cons
        (fun a ha => by
          rw [lookup_append_of_none (hfresh a (List.mem_cons_of_mem attr ha)),
            lookup_cons_ne fun h : a = attr =>
              (List.nodup_cons.mp hnd).1 (h ▸ ha)]
          rfl)
        (fun a ha => hg a (List.mem_cons_of_mem attr ha))]
    simp

/-- `cacheLoop` when the fetch raises at name `n` after the names `pre` all
succeeded: the children inserted for `pre` remain, nothing is inserted for `n`
or later names, and the exception escapes (`false`). -/
lemma cacheLoop_failure {V : Type} (R : Runtime V) (obj : V) (p : String)
    (g : String → V) (n : String) (rest : List String) :
    ∀ (pre : List String) (m : List (String × CachedObject V)),
      pre.Nodup → (∀ a ∈ pre, m.lookup a = none) →
      (∀ a ∈ pre, R.getattr obj a = some (g a)) →
      R.getattr obj n = none →
      cacheLoop R obj p m (pre ++ n :: rest) =
        (m ++ pre.map fun a => (a, CachedObject.init R (g a) (p ++ "." ++ a)),
         false)
  | [], m, _, _, _, hn => by
    rw [List.nil_append, cacheLoop_cons_none hn]
    simp
  | attr :: pre, m, hnd, hfresh, hg, hn => by
    rw [List.cons_append,
      cacheLoop_cons_some (hg attr (List.mem_cons_self attr pre)),
      dictInsert_of_none (hfresh attr (List.mem_cons_self attr pre)),
      cacheLoop_failure R obj p g n rest pre _ hnd.of_cons
        (fun a ha => by
          rw [lookup_append_of_none (hfresh a (List.mem_cons_of_mem attr ha)),
            lookup_cons_ne fun h : a = attr =>
              (List.nodup_cons.mp hnd).1 (h ▸ ha)]
          rfl)
        (fun a ha => hg a (List.mem_cons_of_mem attr ha)) hn]
    simp

/-- `cache_attributes` on a node whose children dict is already non-empty is the
skip branch: nothing is fetched or constructed. -/
lemma cache_attributes_of_ne_nil {V : Type} (R : Runtime V) (c : CachedObject V)
    (h : c.cached_attributes ≠ []) : c.cache_attributes R = (c, true) := by
  obtain ⟨core, m⟩ := c
  have : m.isEmpty = false := by
    cases m
    · exact absurd rfl h
    · rfl
  simp [CachedObject.cache_attributes, this]

/-- `cache_attributes` on a fresh node (empty children dict) when every fetch
succeeds: it constructs one child per member name, all at once. -/
lemma cache_attributes_success {V : Type} (R : Runtime V) (c : CachedObject V)
    (g : String → V) (hempty : c.cached_attributes = [])
    (hnd : c.core.plain_attrs.Nodup)
    (hg : ∀ a ∈ c.core.plain_attrs, R.getattr c.core.obj a = some (g a)) :
    c.cache_attributes R =
      (.node c.core (c.core.plain_attrs.map fun a =>
        (a, CachedObject.init R (g a) (c.core.dotpath ++ "." ++ a))), true) := by
  obtain ⟨core, m⟩ := c
  simp only [CachedObject.cached_attributes] at hempty
  subst hempty
  simp only [CachedObject.core] at hnd hg ⊢
  simp only [CachedObject.cache_attributes, List.isEmpty_nil, if_true,
    cacheLoop_success R core.obj core.dotpath g core.plain_attrs [] hnd
      (fun _ _ => rfl) hg, List.nil_append]

/-- C1 fails as stated: expanding the single member name `a` on a fresh node
(via the only mechanism the code has, `cache_attributes` followed by
`__getitem__`) constructs and stores child nodes for *all* members at once —
afterwards the children map holds entries for both `a` and `b`. -/
theorem C1_counterexample :
    ((((CachedObject.init demoRT 0 "root").expand demoRT "a").1).cached_attributes.map
        Prod.fst = ["a", "b"]) ∧
    ((((CachedObject.init demoRT 0 "root").expand demoRT "a").1).getitem "b").isSome
      = true := by
  decide

/-- C1 amended: children are created lazily per *node*, not per member name —
the first `cache_attributes` call on a node with an empty children map fetches
`getattr` for every member name and stores a fresh `InspectionNode` for each
(keys exactly the member names, in order; each child built from the fetched
value and the extended dotted path), and only one level deep: every stored
child has an empty children map of its own. -/
theorem C1_bulk_expansion (V : Type) (R : Runtime V) (c : CachedObject V)
    (g : String → V) (hempty : c.cached_attributes = [])
    (hnd : c.core.plain_attrs.Nodup)
    (hg : ∀ a ∈ c.core.plain_attrs, R.getattr c.core.obj a = some (g a)) :
    ((c.cache_attributes R).1.cached_attributes.map Prod.fst
      = c.core.plain_attrs) ∧
    ((c.cache_attributes R).1.core = c.core) ∧
    ((c.cache_attributes R).2 = true) ∧
    (∀ a ∈ c.core.plain_attrs,
      (c.cache_attributes R).1.getitem a =
        some (CachedObject.init R (g a) (c.core.dotpath ++ "." ++ a))) ∧
    (∀ q ∈ (c.cache_attributes R).1.cached_attributes,
      q.2.cached_attributes = []) := by
  rw [cache_attributes_success R c g hempty hnd hg]
  refine ⟨?_, rfl, rfl, ?_, ?_⟩
  · simp only [CachedObject.cached_attributes]
    exact map_fst_map_pair _ _
  · intro a ha
    simp only [CachedObject.getitem, CachedObject.cached_attributes]
    exact lookup_map_pair_of_mem ha
  · intro q hq
    simp only [CachedObject.cached_attributes, List.mem_map] at hq
    obtain ⟨a, _, rfl⟩ := hq
    rfl

/-- Witness for C1 amended at the demo runtime. -/
theorem C1_bulk_expansion_witness :
    ((CachedObject.init demoRT 0 "root").cache_attributes demoRT).1.cached_attributes.map
      Prod.fst = (CachedObject.init demoRT 0 "root").core.plain_attrs :=
  (C1_bulk_expansion Nat demoRT (CachedObject.init demoRT 0 "root")
    (fun a => if a = "a" then 1 else 2) rfl (by decide) (by decide)).1

/-- Runtime for the fetch-failure scenario: object `0` enumerates `a` and
`broken`; fetching `a` succeeds, fetching `broken` raises. -/
def brokenGetattr : Nat → String → Option Nat
  | 0, "a" => some 1
  | _, _ => none

def brokenRT : Runtime Nat :=
  ⟨fun v => if v = 0 then ["a", "broken"] else [], brokenGetattr⟩

/-- C2 fails as stated: when `getattr` raises for `broken` (after `a` was
fetched successfully), the exception escapes `cache_attributes` (the `false`
flag: the caller sees the raw exception, not a failure outcome), the children
map is left *partially* populated with the earlier entry `a`, and a subsequent
call does not attempt the fetch again — it takes the skip branch (returning
normally, `true`) because the children map is non-empty, so `broken` stays
missing forever. -/
theorem C2_counterexample :
    (((CachedObject.init brokenRT 0 "root").cache_attributes brokenRT).2
      = false) ∧
    (((CachedObject.init brokenRT 0 "root").cache_attributes brokenRT).1.cached_attributes.map
      Prod.fst = ["a"]) ∧
    (((CachedObject.init brokenRT 0 "root").cache_attributes brokenRT).1.getitem
      "broken" = none) ∧
    (((CachedObject.init brokenRT 0 "root").cache_attributes brokenRT).1.cache_attributes
      brokenRT =
      (((CachedObject.init brokenRT 0 "root").cache_attributes brokenRT).1,
        true)) := by
  refine ⟨by decide, by decide, by rfl, by rfl⟩

/-- C2 amended: if `getattr` raises at member `n` after the members `pre` were
fetched successfully, the exception propagates out of `cache_attributes`
(`false`), the node's list state (its whole `NodeCore`) is unaffected, the
children map gains exactly the entries for `pre` — none for `n` — and a
subsequent call retries the fetch only when `pre = []`: if any earlier member
succeeded, the retry is the skip branch and returns normally without fetching. -/
theorem C2_fetch_failure (V : Type) (R : Runtime V) (c : CachedObject V)
    (g : String → V) (pre : List String) (n : String) (rest : List String)
    (hempty : c.cached_attributes = [])
    (hattrs : c.core.plain_attrs = pre ++ n :: rest)
    (hnd : pre.Nodup) (hnp : n ∉ pre)
    (hg : ∀ a ∈ pre, R.getattr c.core.obj a = some (g a))
    (hn : R.getattr c.core.obj n = none) :
    ((c.cache_attributes R).2 = false) ∧
    ((c.cache_attributes R).1.core = c.core) ∧
    ((c.cache_attributes R).1.cached_attributes.map Prod.fst = pre) ∧
    ((c.cache_attributes R).1.getitem n = none) ∧
    (pre ≠ [] →
      (c.cache_attributes R).1.cache_attributes R
        = ((c.cache_attributes R).1, true)) := by
  obtain ⟨core, m⟩ := c
  simp only [CachedObject.cached_attributes] at hempty
  subst hempty
  simp only [CachedObject.core] at hattrs hg hn ⊢
  have hloop :
      cacheLoop R core.obj core.dotpath ([] : List (String × CachedObject V))
        core.plain_attrs =
      (([] : List (String × CachedObject V)) ++ pre.map fun a =>
        (a, CachedObject.init R (g a) (core.dotpath ++ "." ++ a)), false) := by
    rw [hattrs]
    exact cacheLoop_failure R core.obj core.dotpath g n rest pre [] hnd
      (fun _ _ => rfl) hg hn
  simp only [CachedObject.cache_attributes, List.isEmpty_nil, if_true, hloop,
    List.nil_append]
  refine ⟨by trivial, by trivial, ?_, ?_, ?_⟩
  · simp only [CachedObject.cached_attributes]
    exact map_fst_map_pair _ _
  · simp only [CachedObject.getitem, CachedObject.cached_attributes]
    exact lookup_map_pair_of_not_mem hnp
  · intro hne
    have hie : ((pre.map fun a =>
        (a, CachedObject.init R (g a) (core.dotpath ++ "." ++ a))).isEmpty)
        = false := by
      cases pre with
      | nil => exact absurd rfl hne
      | cons x xs => rfl
    simp [hie]

/-- Witness for C2 amended at the broken runtime
(`pre = ["a"]`, failing member `broken`). -/
theorem C2_fetch_failure_witness :
    (((CachedObject.init brokenRT 0 "root").cache_attributes brokenRT).2
      = false) ∧
    (((CachedObject.init brokenRT 0 "root").cache_attributes brokenRT).1.getitem
      "broken" = none) :=
  ⟨(C2_fetch_failure Nat brokenRT (CachedObject.init brokenRT 0 "root")
      (fun _ => 1) ["a"] "broken" [] rfl (by decide) (by decide) (by decide)
      (by decide) (by decide)).1,
   (C2_fetch_failure Nat brokenRT (CachedObject.init brokenRT 0 "root")
      (fun _ => 1) ["a"] "broken" [] rfl (by decide) (by decide) (by decide)
      (by decide) (by decide)).2.2.2.1⟩

/-- C8: `expand` (populate-then-index) is idempotent — after the first expand of
`n`, a second expand on the resulting node changes nothing (the skip branch
returns the node unchanged) and yields the identical cached child node, namely
the one built from the fetched value on the first call. -/
theorem C8_expand_idempotent (V : Type) (R : Runtime V) (c : CachedObject V)
    (n : String) (g : String → V) (hempty : c.cached_attributes = [])
    (hnd : c.core.plain_attrs.Nodup)
    (hg : ∀ a ∈ c.core.plain_attrs, R.getattr c.core.obj a = some (g a))
    (hn : n ∈ c.core.plain_attrs) :
    (((c.expand R n).1.expand R n).1 = (c.expand R n).1) ∧
    (((c.expand R n).1.expand R n).2 = (c.expand R n).2) ∧
    ((c.expand R n).2 =
      some (CachedObject.init R (g n) (c.core.dotpath ++ "." ++ n))) := by
  have hca := cache_attributes_success R c g hempty hnd hg
  set M := c.core.plain_attrs.map fun a =>
    (a, CachedObject.init R (g a) (c.core.dotpath ++ "." ++ a)) with hM
  have hMne : (CachedObject.node c.core M).cached_attributes ≠ [] := by
    simp only [CachedObject.cached_attributes, hM, ne_eq, List.map_eq_nil_iff]
    exact List.ne_nil_of_mem hn
  have hskip : (CachedObject.node c.core M).cache_attributes R =
      (.node c.core M, true) := cache_attributes_of_ne_nil R _ hMne
  have hget : (CachedObject.node c.core M).getitem n =
      some (CachedObject.init R (g n) (c.core.dotpath ++ "." ++ n)) := by
    simp only [CachedObject.getitem, CachedObject.cached_attributes, hM]
    exact lookup_map_pair_of_mem hn
  refine ⟨?_, ?_, ?_⟩
  · simp only [CachedObject.expand, hca, hskip]
  · simp only [CachedObject.expand, hca, hskip]
  · simp only [CachedObject.expand, hca, if_true]
    exact hget

/-- Witness for C8 at the demo runtime, expanding `a` twice. -/
theorem C8_expand_idempotent_witness :
    (((CachedObject.init demoRT 0 "root").expand demoRT "a").1.expand demoRT
      "a").1 = ((CachedObject.init demoRT 0 "root").expand demoRT "a").1 :=
  (C8_expand_idempotent Nat demoRT (CachedObject.init demoRT 0 "root") "a"
    (fun a => if a = "a" then 1 else 2) rfl (by decide) (by decide)
    (by decide)).1

/-- C9 evaluated at the failing input (empty public list, cursor 0): the objex
variant's unguarded `selected_public_attribute` raises `IndexError` (`none`),
while the guarded objexplore variant returns Python `None` (`.ok none`) as the
claim states. -/
theorem C9_selected_name_empty_list :
    Objex.selected_public_attribute (pubState [] 0 0) = none ∧
    ObjExplore.selected_public_attribute (pubState [] 0 0) = .ok none := by
  exact ⟨rfl, rfl⟩

lemma pyGet_ne_nil {α : Type} {l : List α} {i : Int} {a : α}
    (h : pyGet l i = some a) : l ≠ [] := by
  intro he
  subst he
  unfold pyGet at h
  split_ifs at h <;> simp_all

/-- C10: on a node whose children map is empty (no `cache_attributes` call yet)
but whose active list has a valid, truthy selected name, the selected-child
query of both variants fails with the dict `KeyError` — it neither returns a
node nor lazily constructs one. -/
theorem C10_selected_child_keyerror (V : Type) (c : CachedObject V)
    (name : String) (hempty : c.cached_attributes = [])
    (hsel : pyGet c.core.activeList c.core.activeIndex = some name)
    (hname : name ≠ "") :
    Objex.selected_cached_attribute c = .error .KeyError ∧
    ObjExplore.selected_cached_attribute c = .error .KeyError := by
  obtain ⟨core, m⟩ := c
  simp only [CachedObject.cached_attributes] at hempty
  subst hempty
  simp only [CachedObject.core] at hsel
  have hnil : (CachedObject.node core
      ([] : List (String × CachedObject V))).getitem name = none := rfl
  cases ht : core.attribute_type <;>
    simp only [NodeCore.activeList, NodeCore.activeIndex, ht] at hsel <;>
    constructor <;>
    simp [Objex.selected_cached_attribute, ObjExplore.selected_cached_attribute,
      Objex.selected_public_attribute, Objex.selected_private_attribute,
      ObjExplore.selected_public_attribute, ObjExplore.selected_private_attribute,
      CachedObject.core, ht, hsel, hname, hnil,
      List.isEmpty_eq_true, pyGet_ne_nil hsel]

/-- Witness for C10: a node over one public member `a`, children never cached. -/
theorem C10_selected_child_keyerror_witness :
    Objex.selected_cached_attribute (CachedObject.node (pubState ["a"] 0 0) [])
      = .error .KeyError ∧
    ObjExplore.selected_cached_attribute
      (CachedObject.node (pubState ["a"] 0 0) []) = .error .KeyError :=
  C10_selected_child_keyerror Nat (CachedObject.node (pubState ["a"] 0 0) [])
    "a" rfl (by decide) (by decide)

end ObjexploreModel
